import Mathlib

/-!
Verification of the hyprstream storage subsystem: a shallow embedding of the two
storage backends (the embedded DuckDB backend in src/storage/duckdb.rs and the
driver-managed ADBC backend in src/storage/adbc.rs) together with theorems about
the behaviour their specification describes.

Modelling conventions:
- Machine integers (i64, u64) are Int/Nat, with reduction modulo 2 ^ 64 where u64
  overflow matters (the ADBC statement counter).
- The two f64 metric fields are modelled as rationals; no code path performs
  arithmetic on them, they are only carried through and formatted.
- Fallible Rust code returning Result<_, Status> is modelled with Except Status.
- The native database engines are external collaborators (spec section 1); their
  execution of the SQL the backends issue is modelled at the level of the record
  table: INSERT appends, the timestamp SELECT filters, DDL edits a schema value.
- Asynchronous behaviour (tokio spawn) is modelled by an effect trace: each
  operation returns the ordered list of observable effects it performs, its
  result, and its successor state. A spawned task appears as a spawn effect and
  does not mutate the foreground state.
-/

/-- Status codes of the tonic Status values the backends construct. -/
inductive StatusCode where
  | internal
  | invalidArgument
  | notFound
deriving DecidableEq

/-- A tonic Status: a code together with its message. -/
structure Status where
  code : StatusCode
  message : String
deriving DecidableEq

/-- Mirrors Status::internal. -/
def Status.internal (msg : String) : Status := ⟨StatusCode.internal, msg⟩

/-- Mirrors Status::invalid_argument. -/
def Status.invalid_argument (msg : String) : Status := ⟨StatusCode.invalidArgument, msg⟩

/-- Mirrors Status::not_found. -/
def Status.not_found (msg : String) : Status := ⟨StatusCode.notFound, msg⟩

instance exceptDecEq {ε α : Type} [DecidableEq ε] [DecidableEq α] : DecidableEq (Except ε α) := fun x y =>
  match x, y with
  | Except.ok a, Except.ok b =>
    if h : a = b then Decidable.isTrue (by rw [h])
    else Decidable.isFalse (fun hc => h (by cases hc; rfl))
  | Except.error a, Except.error b =>
    if h : a = b then Decidable.isTrue (by rw [h])
    else Decidable.isFalse (fun hc => h (by cases hc; rfl))
  | Except.ok _, Except.error _ => Decidable.isFalse (fun hc => Except.noConfusion hc)
  | Except.error _, Except.ok _ => Decidable.isFalse (fun hc => Except.noConfusion hc)

/-- The unit of data exchanged with every backend (src/metrics, used by both
backend files). Timestamps and counts are i64; the two value fields are f64 in
the source, modelled as rationals since no arithmetic is performed on them. -/
structure MetricRecord where
  metric_id : String
  timestamp : Int
  value_running_window_sum : Rat
  value_running_window_avg : Rat
  value_running_window_count : Int
deriving DecidableEq

/-- Modelled from the spec: the Cache Manager of src/storage/cache.rs is not under
src/; spec section 4.2 describes its state as an optional TTL in seconds. -/
structure CacheManager where
  ttl_seconds : Option Nat
deriving DecidableEq

/-- Modelled from the spec: CacheManager::new with the configured TTL. -/
def CacheManager.new (ttl : Option Nat) : CacheManager := ⟨ttl⟩

/-- Modelled from the spec: should_evict returns the cutoff timestamp now − TTL
when a TTL is configured (the check-on-every-call policy of section 4.2), none
when no TTL is configured. The current time is passed explicitly. -/
def CacheManager.should_evict (cm : CacheManager) (now : Int) : Option Int :=
  cm.ttl_seconds.map (fun t => now - (t : Int))

/-- Modelled from the spec: the deletion statement equivalent to
DELETE FROM metrics WHERE timestamp < cutoff. -/
def CacheManager.eviction_query (_ : CacheManager) (cutoff : Int) : String :=
  "DELETE FROM metrics WHERE timestamp < " ++ toString cutoff

/-- Observable effects of a backend operation, in order: consulting the cache
manager, spawning the detached eviction task, spawning the detached schema
creation task, and submitting a SQL statement to the engine. -/
inductive Effect where
  | checkEvict : Option Int → Effect
  | spawnEviction : String → Effect
  | spawnCreateTables : Effect
  | sqlExec : String → Effect
deriving DecidableEq

/-- True exactly on the cache-manager consultation effect. -/
def Effect.isCheckEvict : Effect → Bool
  | Effect.checkEvict _ => true
  | _ => false

/-- Result of one backend operation: its ordered effect trace, its returned
value or Status error, and the successor backend state. -/
structure Outcome (σ : Type) (α : Type) where
  trace : List Effect
  result : Except Status α
  state : σ
deriving DecidableEq

/-- UTF-8 encoding of one Unicode scalar value, as Rust str::as_bytes produces
(bytes represented as Nat). -/
def utf8EncodeScalar (n : Nat) : List Nat :=
  if n < 128 then [n]
  else if n < 2048 then [192 + n / 64, 128 + n % 64]
  else if n < 65536 then [224 + n / 4096, 128 + n / 64 % 64, 128 + n % 64]
  else [240 + n / 262144, 128 + n / 4096 % 64, 128 + n / 64 % 64, 128 + n % 64]

/-- A UTF-8 continuation byte. -/
abbrev isUtf8Cont (b : Nat) : Prop := 128 ≤ b ∧ b < 192

/-- Decoded scalar of a two-byte UTF-8 sequence, when the continuation byte is
well formed (the leading byte is already known to be in 194..223, which rules
out overlong two-byte forms). -/
def utf8Decode2Val (b b1 : Nat) : Option Nat :=
  if isUtf8Cont b1 then some ((b - 192) * 64 + (b1 - 128)) else none

/-- Decoded scalar of a three-byte UTF-8 sequence, when the continuation bytes
are well formed and the value is neither overlong nor a surrogate. -/
def utf8Decode3Val (b b1 b2 : Nat) : Option Nat :=
  if isUtf8Cont b1 ∧ isUtf8Cont b2 then
    if 2048 ≤ (b - 224) * 4096 + (b1 - 128) * 64 + (b2 - 128) ∧
       ((b - 224) * 4096 + (b1 - 128) * 64 + (b2 - 128) < 55296 ∨
        57344 ≤ (b - 224) * 4096 + (b1 - 128) * 64 + (b2 - 128)) then
      some ((b - 224) * 4096 + (b1 - 128) * 64 + (b2 - 128))
    else none
  else none

/-- Decoded scalar of a four-byte UTF-8 sequence, when the continuation bytes
are well formed and the value is neither overlong nor beyond U+10FFFF. -/
def utf8Decode4Val (b b1 b2 b3 : Nat) : Option Nat :=
  if isUtf8Cont b1 ∧ isUtf8Cont b2 ∧ isUtf8Cont b3 then
    if 65536 ≤ (b - 240) * 262144 + (b1 - 128) * 4096 + (b2 - 128) * 64 + (b3 - 128) ∧
       (b - 240) * 262144 + (b1 - 128) * 4096 + (b2 - 128) * 64 + (b3 - 128) < 1114112 then
      some ((b - 240) * 262144 + (b1 - 128) * 4096 + (b2 - 128) * 64 + (b3 - 128))
    else none
  else none

/-- Handling of a two-byte sequence after its leading byte: require one
continuation byte, decode, and continue on the remainder. -/
def utf8Arm2 (dec : List Nat → Option (List Nat)) (b : Nat) :
    List Nat → Option (List Nat)
  | b1 :: rest =>
    (utf8Decode2Val b b1).bind (fun v => (dec rest).map (fun l => v :: l))
  | [] => none

/-- Handling of a three-byte sequence after its leading byte. -/
def utf8Arm3 (dec : List Nat → Option (List Nat)) (b : Nat) :
    List Nat → Option (List Nat)
  | b1 :: b2 :: rest =>
    (utf8Decode3Val b b1 b2).bind (fun v => (dec rest).map (fun l => v :: l))
  | _ => none

/-- Handling of a four-byte sequence after its leading byte. -/
def utf8Arm4 (dec : List Nat → Option (List Nat)) (b : Nat) :
    List Nat → Option (List Nat)
  | b1 :: b2 :: b3 :: rest =>
    (utf8Decode4Val b b1 b2 b3).bind (fun v => (dec rest).map (fun l => v :: l))
  | _ => none

/-- Fuelled UTF-8 decoding loop: one unit of fuel per decoded scalar. Since every
scalar consumes at least one byte, fuel equal to the byte count never runs out. -/
def utf8DecodeAux : Nat → List Nat → Option (List Nat)
  | _, [] => some []
  | 0, _ :: _ => none
  | fuel + 1, b :: bs =>
    if b < 128 then (utf8DecodeAux fuel bs).map (fun l => b :: l)
    else if b < 194 then none
    else if b < 224 then utf8Arm2 (utf8DecodeAux fuel) b bs
    else if b < 240 then utf8Arm3 (utf8DecodeAux fuel) b bs
    else if b < 245 then utf8Arm4 (utf8DecodeAux fuel) b bs
    else none

/-- Modelled from Rust std (external to the repo): str::from_utf8 validation and
decoding, returning the list of decoded Unicode scalar values, or none on any
invalid sequence (stray continuation bytes, overlong forms, surrogates,
out-of-range values, truncation). -/
def utf8DecodeScalars (l : List Nat) : Option (List Nat) :=
  utf8DecodeAux l.length l

/-- The Unicode scalar values of a Lean string, modelling the characters of a
Rust str. -/
def stringScalars (s : String) : List Nat := s.data.map Char.toNat

/-- The UTF-8 bytes of a string, modelling Rust str::as_bytes. -/
def utf8EncodeString (s : String) : List Nat := (stringScalars s).flatMap utf8EncodeScalar

/-- Modelled from Rust std (external to the repo): str::parse for i64 — an
optional sign followed by one or more ASCII digits and nothing else, with the
value required to fit in the i64 range. Input is the list of scalar values. -/
def parseI64Scalars (s : List Nat) : Option Int :=
  let signDigits : Int × List Nat :=
    match s with
    | 43 :: rest => (1, rest)
    | 45 :: rest => (-1, rest)
    | rest => (1, rest)
  if signDigits.2 = [] then none
  else if signDigits.2.all (fun c => decide (48 ≤ c ∧ c ≤ 57)) then
    let v : Int := signDigits.1 * ((signDigits.2.foldl (fun a c => a * 10 + (c - 48)) 0 : Nat) : Int)
    if -(2 ^ 63) ≤ v ∧ v < 2 ^ 63 then some v else none
  else none

/-- Mirrors sql.parse().unwrap_or(0) in DuckDbBackend::query_sql. -/
def parseI64OrZero (s : List Nat) : Int := (parseI64Scalars s).getD 0

/-- Mirrors u64::to_le_bytes: the eight little-endian bytes of a u64 value. -/
def u64ToLeBytes (n : Nat) : List Nat :=
  [n % 256, n / 256 % 256, n / 65536 % 256, n / 16777216 % 256,
   n / 4294967296 % 256, n / 1099511627776 % 256,
   n / 281474976710656 % 256, n / 72057594037927936 % 256]

/-- Mirrors statement_handle.try_into() followed by u64::from_le_bytes in
AdbcBackend::query_sql: succeeds exactly on lists of eight bytes. -/
def tryIntoU64 : List Nat → Option Nat
  | [b0, b1, b2, b3, b4, b5, b6, b7] =>
    some (b0 + 256 * b1 + 65536 * b2 + 16777216 * b3 + 4294967296 * b4 +
          1099511627776 * b5 + 281474976710656 * b6 + 72057594037927936 * b7)
  | _ => none

/-- Column types appearing in the two CREATE TABLE statements; TEXT and VARCHAR
are the same string type spelled differently per engine. -/
inductive ColType where
  | varchar
  | bigint
  | double
deriving DecidableEq

/-- One column declaration of a CREATE TABLE statement. -/
structure ColumnDef where
  name : String
  ty : ColType
  notNull : Bool
deriving DecidableEq

/-- One secondary index created by CREATE INDEX. -/
structure IndexDef where
  name : String
  columns : List String
deriving DecidableEq

/-- The schema state of the metrics table as the engine holds it. -/
structure TableSchema where
  columns : List ColumnDef
  primaryKey : Option (List String)
  indexes : List IndexDef
deriving DecidableEq

/-- Modelled from the spec: engine semantics of CREATE TABLE IF NOT EXISTS —
creates the table only when none exists yet. -/
def createTableIfNotExists (schema : Option TableSchema) (tbl : TableSchema) : Option TableSchema :=
  match schema with
  | none => some tbl
  | some s => some s

/-- Modelled from the spec: engine semantics of CREATE INDEX IF NOT EXISTS —
adds the index unless one of the same name exists. -/
def createIndexIfNotExists (schema : Option TableSchema) (idx : IndexDef) : Option TableSchema :=
  schema.map (fun s =>
    if s.indexes.any (fun i => i.name == idx.name) then s
    else { s with indexes := s.indexes ++ [idx] })

/-- Modelled from the spec: rows an engine returns for the query
SELECT ... FROM metrics WHERE timestamp >= from_timestamp, in stored order. -/
def rowsFromTimestamp (from_timestamp : Int) (t : List MetricRecord) : List MetricRecord :=
  t.filter (fun r => decide (from_timestamp ≤ r.timestamp))

/-- State of the embedded DuckDB backend (src/storage/duckdb.rs): the owned
connection is modelled by the record table and schema the engine holds behind
it, plus the constructor-supplied fields. -/
structure DuckDbBackend where
  table : List MetricRecord
  schema : Option TableSchema
  connection_string : String
  options : List (String × String)
  cache_manager : CacheManager
deriving DecidableEq

/-- The CREATE TABLE statement of DuckDbBackend::create_tables (whitespace
normalized to one line). -/
def duckCreateTableSql : String :=
  "CREATE TABLE IF NOT EXISTS metrics (timestamp BIGINT NOT NULL, metric_id VARCHAR NOT NULL, value_running_window_sum DOUBLE NOT NULL, value_running_window_avg DOUBLE NOT NULL, value_running_window_count BIGINT NOT NULL)"

/-- The CREATE INDEX statement of DuckDbBackend::create_tables (whitespace
normalized to one line). -/
def duckCreateIndexSql : String :=
  "CREATE INDEX IF NOT EXISTS metrics_timestamp_idx ON metrics(timestamp) WITH (prefetch_blocks = 8)"

/-- The table declared by duckCreateTableSql. -/
def duckMetricsTable : TableSchema :=
  { columns :=
      [⟨"timestamp", ColType.bigint, true⟩,
       ⟨"metric_id", ColType.varchar, true⟩,
       ⟨"value_running_window_sum", ColType.double, true⟩,
       ⟨"value_running_window_avg", ColType.double, true⟩,
       ⟨"value_running_window_count", ColType.bigint, true⟩],
    primaryKey := none,
    indexes := [] }

/-- The index declared by duckCreateIndexSql. -/
def duckTimestampIndex : IndexDef := ⟨"metrics_timestamp_idx", ["timestamp"]⟩

/-- One value tuple of the multi-row INSERT built by DuckDbBackend::insert_metrics:
the record fields are string-formatted directly into the statement text, with only
metric_id quoted. -/
def duckMetricValues (m : MetricRecord) : String :=
  "(" ++ toString m.timestamp ++ ", \x27" ++ m.metric_id ++ "\x27, " ++
    toString m.value_running_window_sum ++ ", " ++ toString m.value_running_window_avg ++
    ", " ++ toString m.value_running_window_count ++ ")"

/-- The full INSERT statement text DuckDbBackend::insert_metrics builds: the fixed
column list followed by the comma-separated value tuples (the first/comma loop of
the source is the intercalation). -/
def duckInsertQuery (metrics : List MetricRecord) : String :=
  "INSERT INTO metrics (timestamp, metric_id, value_running_window_sum, value_running_window_avg, value_running_window_count) VALUES "
    ++ String.intercalate ", " (metrics.map duckMetricValues)

/-- The SELECT statement text DuckDbBackend::query_metrics builds (whitespace
normalized to one line). -/
def duckSelectQuery (from_timestamp : Int) : String :=
  "SELECT timestamp, metric_id, value_running_window_sum, value_running_window_avg, value_running_window_count FROM metrics WHERE timestamp >= "
    ++ toString from_timestamp

/-- Modelled from the spec where the engine executes SQL: the engine running the
multi-row INSERT appends its rows; an INSERT whose VALUES list is empty is a
syntax error the engine reports (representative message). -/
def duckRunInsert (metrics : List MetricRecord) (t : List MetricRecord) :
    Except Status (List MetricRecord) :=
  if metrics.isEmpty then
    Except.error (Status.internal "Parser Error: syntax error at end of input")
  else Except.ok (t ++ metrics)

/-- Mirrors the CacheEviction impl for DuckDbBackend: execute_eviction spawns the
delete on a detached task (which will log, and never surface, any failure) and
returns Ok immediately. -/
def DuckDbBackend.execute_eviction (b : DuckDbBackend) (query : String) :
    Outcome DuckDbBackend Unit :=
  { trace := [Effect.spawnEviction query], result := Except.ok (), state := b }

/-- The eviction check prologue shared by DuckDbBackend::insert_metrics and
DuckDbBackend::query_metrics: consult should_evict and, when a cutoff is due,
run execute_eviction on the eviction query. -/
def DuckDbBackend.evictionPrologue (b : DuckDbBackend) (now : Int) : List Effect :=
  match b.cache_manager.should_evict now with
  | some cutoff =>
    Effect.checkEvict (some cutoff) ::
      (b.execute_eviction (b.cache_manager.eviction_query cutoff)).trace
  | none => [Effect.checkEvict none]

/-- Mirrors DuckDbBackend::insert_metrics: eviction check first, then the
string-built INSERT is submitted to the engine. -/
def DuckDbBackend.insert_metrics (b : DuckDbBackend) (now : Int)
    (metrics : List MetricRecord) : Outcome DuckDbBackend Unit :=
  { trace := b.evictionPrologue now ++ [Effect.sqlExec (duckInsertQuery metrics)],
    result := (duckRunInsert metrics b.table).map (fun _ => ()),
    state :=
      match duckRunInsert metrics b.table with
      | Except.ok t => { b with table := t }
      | Except.error _ => b }

/-- Mirrors DuckDbBackend::query_metrics: eviction check first, then the
timestamp-filter SELECT, decoding rows positionally. -/
def DuckDbBackend.query_metrics (b : DuckDbBackend) (now : Int)
    (from_timestamp : Int) : Outcome DuckDbBackend (List MetricRecord) :=
  { trace := b.evictionPrologue now ++ [Effect.sqlExec (duckSelectQuery from_timestamp)],
    result := Except.ok (rowsFromTimestamp from_timestamp b.table),
    state := b }

/-- Mirrors DuckDbBackend::prepare_sql: the handle is the raw UTF-8 bytes of the
query text. -/
def DuckDbBackend.prepare_sql (b : DuckDbBackend) (query : String) :
    Outcome DuckDbBackend (List Nat) :=
  { trace := [], result := Except.ok (utf8EncodeString query), state := b }

/-- Message of the Status::internal error DuckDbBackend::query_sql returns when
the handle is not valid UTF-8 (representative text of the Utf8Error display). -/
def utf8ErrorMessage : String := "invalid utf-8 sequence"

/-- Mirrors DuckDbBackend::query_sql: decode the handle as UTF-8 (any failure
becomes Status::internal), parse it as an i64 defaulting to 0, and re-run
query_metrics. -/
def DuckDbBackend.query_sql (b : DuckDbBackend) (now : Int)
    (statement_handle : List Nat) : Outcome DuckDbBackend (List MetricRecord) :=
  match utf8DecodeScalars statement_handle with
  | none =>
    { trace := [], result := Except.error (Status.internal utf8ErrorMessage), state := b }
  | some scalars => b.query_metrics now (parseI64OrZero scalars)

/-- Mirrors DuckDbBackend::create_tables: CREATE TABLE IF NOT EXISTS followed by
CREATE INDEX IF NOT EXISTS, both submitted to the engine. -/
def DuckDbBackend.create_tables (b : DuckDbBackend) : Outcome DuckDbBackend Unit :=
  { trace := [Effect.sqlExec duckCreateTableSql, Effect.sqlExec duckCreateIndexSql],
    result := Except.ok (),
    state :=
      { b with
        schema :=
          createIndexIfNotExists (createTableIfNotExists b.schema duckMetricsTable)
            duckTimestampIndex } }

/-- Mirrors the StorageBackend init impl for DuckDbBackend. -/
def DuckDbBackend.init (b : DuckDbBackend) : Outcome DuckDbBackend Unit :=
  b.create_tables

/-- Mirrors DuckDbBackend::new: once the connection opens the constructor returns
Ok immediately; create_tables is only spawned on a detached task (whose failure
is printed, not returned), so the returned state has no schema yet. -/
def DuckDbBackend.new (connection_string : String) (options : List (String × String))
    (ttl : Option Nat) : List Effect × Except Status DuckDbBackend :=
  ([Effect.spawnCreateTables],
   Except.ok
     { table := [], schema := none, connection_string := connection_string,
       options := options, cache_manager := CacheManager.new ttl })

/-- State of the driver-managed ADBC backend (src/storage/adbc.rs): the pooled
connection is modelled by the record table and schema behind it, plus the
statement counter and the prepared-statement cache. -/
structure AdbcBackend where
  table : List MetricRecord
  schema : Option TableSchema
  statement_counter : Nat
  prepared_statements : List (Nat × String)
deriving DecidableEq

/-- The CREATE TABLE statement of AdbcBackend::create_tables (whitespace
normalized to one line). -/
def adbcCreateTableSql : String :=
  "CREATE TABLE IF NOT EXISTS metrics (metric_id TEXT NOT NULL, timestamp BIGINT NOT NULL, value_running_window_sum DOUBLE PRECISION NOT NULL, value_running_window_avg DOUBLE PRECISION NOT NULL, value_running_window_count BIGINT NOT NULL, PRIMARY KEY (metric_id, timestamp))"

/-- The table declared by adbcCreateTableSql. -/
def adbcMetricsTable : TableSchema :=
  { columns :=
      [⟨"metric_id", ColType.varchar, true⟩,
       ⟨"timestamp", ColType.bigint, true⟩,
       ⟨"value_running_window_sum", ColType.double, true⟩,
       ⟨"value_running_window_avg", ColType.double, true⟩,
       ⟨"value_running_window_count", ColType.bigint, true⟩],
    primaryKey := some ["metric_id", "timestamp"],
    indexes := [] }

/-- The parameterized INSERT statement of AdbcBackend::insert_metrics (whitespace
normalized to one line). -/
def adbcInsertSql : String :=
  "INSERT INTO metrics (metric_id, timestamp, value_running_window_sum, value_running_window_avg, value_running_window_count) VALUES (?, ?, ?, ?, ?)"

/-- The parameterized SELECT statement of AdbcBackend::query_metrics (whitespace
normalized to one line). -/
def adbcSelectSql : String :=
  "SELECT metric_id, timestamp, value_running_window_sum, value_running_window_avg, value_running_window_count FROM metrics WHERE timestamp >= ?"

/-- Mirrors AdbcBackend::create_tables: the single CREATE TABLE IF NOT EXISTS
statement (no index). -/
def AdbcBackend.create_tables (b : AdbcBackend) : Outcome AdbcBackend Unit :=
  { trace := [Effect.sqlExec adbcCreateTableSql],
    result := Except.ok (),
    state := { b with schema := createTableIfNotExists b.schema adbcMetricsTable } }

/-- Mirrors the StorageBackend init impl for AdbcBackend. -/
def AdbcBackend.init (b : AdbcBackend) : Outcome AdbcBackend Unit :=
  b.create_tables

/-- Mirrors AdbcBackend::insert_metrics: the batch is converted to columnar form
and bound to the parameterized INSERT — no eviction check appears on this path.
The engine executing the bound INSERT appends the rows. -/
def AdbcBackend.insert_metrics (b : AdbcBackend) (metrics : List MetricRecord) :
    Outcome AdbcBackend Unit :=
  { trace := [Effect.sqlExec adbcInsertSql],
    result := Except.ok (),
    state := { b with table := b.table ++ metrics } }

/-- Mirrors AdbcBackend::query_metrics: the timestamp parameter is bound to the
SELECT, result batches are decoded, and an empty result set is surfaced as a
NotFound error — no eviction check appears on this path. -/
def AdbcBackend.query_metrics (b : AdbcBackend) (from_timestamp : Int) :
    Outcome AdbcBackend (List MetricRecord) :=
  if (rowsFromTimestamp from_timestamp b.table).isEmpty then
    { trace := [Effect.sqlExec adbcSelectSql],
      result := Except.error (Status.not_found "No metrics found for the given timestamp"),
      state := b }
  else
    { trace := [Effect.sqlExec adbcSelectSql],
      result := Except.ok (rowsFromTimestamp from_timestamp b.table),
      state := b }

/-- Mirrors AdbcBackend::prepare_sql: fetch_add on the u64 statement counter
(returning the old value, wrapping modulo 2 ^ 64), push the (handle, text) pair
onto the cache, and return the handle as its eight little-endian bytes. -/
def AdbcBackend.prepare_sql (b : AdbcBackend) (query : String) :
    Outcome AdbcBackend (List Nat) :=
  { trace := [],
    result := Except.ok (u64ToLeBytes b.statement_counter),
    state :=
      { b with
        statement_counter := (b.statement_counter + 1) % 2 ^ 64,
        prepared_statements := b.prepared_statements ++ [(b.statement_counter, query)] } }

/-- The fixed text before the timestamp literal in the select statements callers
replay through the ADBC statement cache. -/
def adbcSelectTextHead : String :=
  "SELECT metric_id, timestamp, value_running_window_sum, value_running_window_avg, value_running_window_count FROM metrics WHERE timestamp >= "

/-- Modelled from the spec: native SQL execution is out of scope (section 1), so
replaying a cached SQL text is modelled for the timestamp-filter query shape the
system issues; any other text yields no rows. -/
def adbcReplaySql (sql : String) (t : List MetricRecord) : List MetricRecord :=
  if sql.startsWith adbcSelectTextHead then
    match parseI64Scalars (stringScalars (sql.drop adbcSelectTextHead.length)) with
    | some ts => rowsFromTimestamp ts t
    | none => []
  else []

/-- Mirrors AdbcBackend::query_sql: an eight-byte handle is decoded little-endian
(anything else is InvalidArgument), looked up in the statement cache (a missing
entry is InvalidArgument), and the cached text is re-executed. -/
def AdbcBackend.query_sql (b : AdbcBackend) (statement_handle : List Nat) :
    Outcome AdbcBackend (List MetricRecord) :=
  match tryIntoU64 statement_handle with
  | none =>
    { trace := [], result := Except.error (Status.invalid_argument "Invalid statement handle"),
      state := b }
  | some handle =>
    match b.prepared_statements.find? (fun p => p.1 == handle) with
    | none =>
      { trace := [],
        result := Except.error (Status.invalid_argument "Statement handle not found"),
        state := b }
    | some p =>
      { trace := [Effect.sqlExec p.2],
        result := Except.ok (adbcReplaySql p.2 b.table),
        state := b }

/-- Folds prepare_sql over a list of query texts, collecting the returned
handles, for stating the N-distinct-handles property. -/
def AdbcBackend.prepareMany : AdbcBackend → List String → List (List Nat) × AdbcBackend
  | b, [] => ([], b)
  | b, q :: qs =>
    let o := b.prepare_sql q
    let rest := AdbcBackend.prepareMany o.state qs
    ((match o.result with
      | Except.ok h => h :: rest.1
      | Except.error _ => rest.1),
     rest.2)

/-- The concrete example records of spec section 8. -/
def cpuRecord1 : MetricRecord := ⟨"cpu", 100, 10, 5, 2⟩

/-- The second concrete example record of spec section 8. -/
def cpuRecord2 : MetricRecord := ⟨"cpu", 200, 30, 10, 3⟩

/-- A freshly constructed in-memory embedded backend with no TTL. -/
def duckFresh : DuckDbBackend :=
  { table := [], schema := none, connection_string := ":memory:", options := [],
    cache_manager := CacheManager.new none }

/-- A freshly constructed driver-managed backend. -/
def adbcFresh : AdbcBackend :=
  { table := [], schema := none, statement_counter := 0, prepared_statements := [] }

/-- The status code of an operation result, when it is an error. -/
def resultStatusCode {σ α : Type} (o : Outcome σ α) : Option StatusCode :=
  match o.result with
  | Except.error e => some e.code
  | Except.ok _ => none

/-- A driver-managed backend holding only the timestamp-100 example record. -/
def adbcOneRec : AdbcBackend :=
  { table := [cpuRecord1], schema := none, statement_counter := 0,
    prepared_statements := [] }

/-- A driver-managed backend holding only the timestamp-200 example record. -/
def adbcRec2 : AdbcBackend :=
  { table := [cpuRecord2], schema := none, statement_counter := 0,
    prepared_statements := [] }

/-- A fresh embedded backend configured with a ten-second TTL. -/
def duckTtl10 : DuckDbBackend :=
  { table := [], schema := none, connection_string := ":memory:", options := [],
    cache_manager := CacheManager.new (some 10) }

/-- The backend state DuckDbBackend::new returns. -/
def duckNewState (connection_string : String) (options : List (String × String))
    (ttl : Option Nat) : DuckDbBackend :=
  { table := [], schema := none, connection_string := connection_string,
    options := options, cache_manager := CacheManager.new ttl }

/-- Decoding the UTF-8 encoding of one valid Unicode scalar value prepended to
any byte list consumes one unit of fuel and yields that scalar followed by the
decoding of the rest. -/
theorem utf8DecodeAux_encodeScalar (fuel n : Nat)
    (hv : n < 55296 ∨ (57344 ≤ n ∧ n < 1114112)) (rest : List Nat) :
    utf8DecodeAux (fuel + 1) (utf8EncodeScalar n ++ rest) =
      (utf8DecodeAux fuel rest).map (fun l => n :: l) := by
  by_cases h1 : n < 128
  · simp only [utf8EncodeScalar, if_pos h1, List.cons_append, List.nil_append,
      utf8DecodeAux, if_pos h1]
  · by_cases h2 : n < 2048
    · have e1 : ¬ (192 + n / 64 < 128) := by omega
      have e2 : ¬ (192 + n / 64 < 194) := by omega
      have e3 : 192 + n / 64 < 224 := by omega
      have c1 : isUtf8Cont (128 + n % 64) := by constructor <;> omega
      have hval : (192 + n / 64 - 192) * 64 + (128 + n % 64 - 128) = n := by omega
      simp only [utf8EncodeScalar, if_neg h1, if_pos h2, List.cons_append, List.nil_append,
        utf8DecodeAux, if_neg e1, if_neg e2, if_pos e3, utf8Arm2, utf8Decode2Val,
        if_pos c1, hval, Option.some_bind]
    · by_cases h3 : n < 65536
      · have e1 : ¬ (224 + n / 4096 < 128) := by omega
        have e2 : ¬ (224 + n / 4096 < 194) := by omega
        have e3 : ¬ (224 + n / 4096 < 224) := by omega
        have e4 : 224 + n / 4096 < 240 := by omega
        have c1 : isUtf8Cont (128 + n / 64 % 64) := by constructor <;> omega
        have c2 : isUtf8Cont (128 + n % 64) := by constructor <;> omega
        have hval : (224 + n / 4096 - 224) * 4096 + (128 + n / 64 % 64 - 128) * 64 +
            (128 + n % 64 - 128) = n := by omega
        have hrange : 2048 ≤ (224 + n / 4096 - 224) * 4096 + (128 + n / 64 % 64 - 128) * 64 +
            (128 + n % 64 - 128) ∧
            ((224 + n / 4096 - 224) * 4096 + (128 + n / 64 % 64 - 128) * 64 +
              (128 + n % 64 - 128) < 55296 ∨
             57344 ≤ (224 + n / 4096 - 224) * 4096 + (128 + n / 64 % 64 - 128) * 64 +
              (128 + n % 64 - 128)) := by omega
        simp only [utf8EncodeScalar, if_neg h1, if_neg h2, if_pos h3, List.cons_append,
          List.nil_append, utf8DecodeAux, if_neg e1, if_neg e2, if_neg e3, if_pos e4,
          utf8Arm3, utf8Decode3Val, if_pos (And.intro c1 c2), hval]
        rw [if_pos (show 2048 ≤ n ∧ (n < 55296 ∨ 57344 ≤ n) from by omega)]
        rfl
      · have e1 : ¬ (240 + n / 262144 < 128) := by omega
        have e2 : ¬ (240 + n / 262144 < 194) := by omega
        have e3 : ¬ (240 + n / 262144 < 224) := by omega
        have e4 : ¬ (240 + n / 262144 < 240) := by omega
        have e5 : 240 + n / 262144 < 245 := by omega
        have c1 : isUtf8Cont (128 + n / 4096 % 64) := by constructor <;> omega
        have c2 : isUtf8Cont (128 + n / 64 % 64) := by constructor <;> omega
        have c3 : isUtf8Cont (128 + n % 64) := by constructor <;> omega
        have hval : (240 + n / 262144 - 240) * 262144 + (128 + n / 4096 % 64 - 128) * 4096 +
            (128 + n / 64 % 64 - 128) * 64 + (128 + n % 64 - 128) = n := by omega
        have hrange : 65536 ≤ (240 + n / 262144 - 240) * 262144 +
            (128 + n / 4096 % 64 - 128) * 4096 + (128 + n / 64 % 64 - 128) * 64 +
            (128 + n % 64 - 128) ∧
            (240 + n / 262144 - 240) * 262144 + (128 + n / 4096 % 64 - 128) * 4096 +
              (128 + n / 64 % 64 - 128) * 64 + (128 + n % 64 - 128) < 1114112 := by omega
        simp only [utf8EncodeScalar, if_neg h1, if_neg h2, if_neg h3, List.cons_append,
          List.nil_append, utf8DecodeAux, if_neg e1, if_neg e2, if_neg e3, if_neg e4,
          if_pos e5, utf8Arm4, utf8Decode4Val, if_pos (And.intro c1 (And.intro c2 c3)), hval]
        rw [if_pos (show 65536 ≤ n ∧ n < 1114112 from by omega)]
        rfl

/-- Decoding the concatenated UTF-8 encodings of a list of valid scalar values,
with any extra fuel beyond one unit per scalar, recovers exactly that list. -/
theorem utf8DecodeAux_flatMap (l : List Nat)
    (hv : ∀ n ∈ l, n < 55296 ∨ (57344 ≤ n ∧ n < 1114112)) (fuel : Nat) :
    utf8DecodeAux (fuel + l.length) (l.flatMap utf8EncodeScalar) = some l := by
  induction l generalizing fuel with
  | nil => simp [utf8DecodeAux]
  | cons a t ih =>
    have ha := hv a (List.mem_cons_self a t)
    have ht : ∀ n ∈ t, n < 55296 ∨ (57344 ≤ n ∧ n < 1114112) :=
      fun n hn => hv n (List.mem_cons_of_mem a hn)
    have hfuel : fuel + (a :: t).length = (fuel + t.length) + 1 := by
      simp only [List.length_cons]
      omega
    rw [List.flatMap_cons, hfuel, utf8DecodeAux_encodeScalar _ a ha, ih ht]
    rfl

/-- Every UTF-8 encoding takes at least one byte. -/
theorem one_le_utf8EncodeScalar_length (n : Nat) : 1 ≤ (utf8EncodeScalar n).length := by
  unfold utf8EncodeScalar
  split
  · simp
  · split
    · simp
    · split <;> simp

/-- There are at least as many bytes as scalars in a UTF-8 encoding. -/
theorem length_le_flatMap_length (l : List Nat) :
    l.length ≤ (l.flatMap utf8EncodeScalar).length := by
  induction l with
  | nil => simp
  | cons a t ih =>
    rw [List.flatMap_cons]
    simp only [List.length_append, List.length_cons]
    have := one_le_utf8EncodeScalar_length a
    omega

/-- Decoding the concatenated UTF-8 encodings of valid scalar values recovers
exactly that list. -/
theorem utf8DecodeScalars_flatMap (l : List Nat)
    (hv : ∀ n ∈ l, n < 55296 ∨ (57344 ≤ n ∧ n < 1114112)) :
    utf8DecodeScalars (l.flatMap utf8EncodeScalar) = some l := by
  unfold utf8DecodeScalars
  have h := length_le_flatMap_length l
  have hsplit : (l.flatMap utf8EncodeScalar).length =
      ((l.flatMap utf8EncodeScalar).length - l.length) + l.length := by omega
  rw [hsplit]
  exact utf8DecodeAux_flatMap l hv _

/-- Every character of a Lean string carries a valid Unicode scalar value. -/
theorem char_toNat_valid (c : Char) :
    c.toNat < 55296 ∨ (57344 ≤ c.toNat ∧ c.toNat < 1114112) := c.valid

/-- UTF-8 round trip on whole strings: decoding the bytes of as_bytes recovers
the string scalar values, as Rust str::from_utf8 does on any str. -/
theorem utf8DecodeScalars_encodeString (s : String) :
    utf8DecodeScalars (utf8EncodeString s) = some (stringScalars s) := by
  refine utf8DecodeScalars_flatMap _ ?_
  intro n hn
  simp only [stringScalars, List.mem_map] at hn
  obtain ⟨c, _, rfl⟩ := hn
  exact char_toNat_valid c

/-- Little-endian decode of the little-endian bytes of a u64 value. -/
theorem tryIntoU64_u64ToLeBytes (n : Nat) :
    tryIntoU64 (u64ToLeBytes n) = some (n % 2 ^ 64) := by
  simp only [u64ToLeBytes, tryIntoU64, Option.some.injEq]
  omega

/-- The little-endian serialization is injective on u64 values. -/
theorem u64ToLeBytes_inj (a b : Nat) (ha : a < 2 ^ 64) (hb : b < 2 ^ 64)
    (h : u64ToLeBytes a = u64ToLeBytes b) : a = b := by
  have h2 := congrArg tryIntoU64 h
  rw [tryIntoU64_u64ToLeBytes, tryIntoU64_u64ToLeBytes] at h2
  have h3 : a % 2 ^ 64 = b % 2 ^ 64 := Option.some.inj h2
  omega

/-- A handle whose length is not eight bytes never decodes. -/
theorem tryIntoU64_eq_none (l : List Nat) (h : l.length ≠ 8) : tryIntoU64 l = none := by
  rcases l with _ | ⟨b0, _ | ⟨b1, _ | ⟨b2, _ | ⟨b3, _ | ⟨b4, _ | ⟨b5, _ | ⟨b6, _ | ⟨b7, _ | ⟨b8, t⟩⟩⟩⟩⟩⟩⟩⟩⟩ <;>
    first
      | rfl
      | simp at h

/-- The handles prepareMany returns are the successive counter values, starting
from the current counter, serialized little-endian. -/
theorem prepareMany_fst (qs : List String) (b : AdbcBackend)
    (hc : b.statement_counter < 2 ^ 64) :
    (AdbcBackend.prepareMany b qs).1 =
      (List.range qs.length).map
        (fun i => u64ToLeBytes ((b.statement_counter + i) % 2 ^ 64)) := by
  induction qs generalizing b with
  | nil => rfl
  | cons q qs ih =>
    have hc2 : ((b.prepare_sql q).state).statement_counter < 2 ^ 64 :=
      Nat.mod_lt _ (by norm_num)
    have h1 : (AdbcBackend.prepareMany b (q :: qs)).1 =
        u64ToLeBytes b.statement_counter ::
          (AdbcBackend.prepareMany ((b.prepare_sql q).state) qs).1 := rfl
    rw [h1, ih _ hc2]
    have h2 : ((b.prepare_sql q).state).statement_counter =
        (b.statement_counter + 1) % 2 ^ 64 := rfl
    rw [h2]
    simp only [List.length_cons, List.range_succ_eq_map, List.map_cons, List.map_map]
    refine congrArg₂ List.cons ?_ ?_
    · rw [Nat.add_zero, Nat.mod_eq_of_lt hc]
    · refine List.map_congr_left ?_
      intro i _
      simp only [Function.comp]
      congr 1
      omega

/-- Claim C1 fails as stated over every backend: on the Driver-Managed backend
holding one record at timestamp 100, query_metrics 150 does not return the
(empty) list of stored records with timestamp at least 150 — it fails with a
NotFound error instead. -/
theorem C1_counterexample :
    (AdbcBackend.query_metrics adbcOneRec 150).result
      ≠ Except.ok (rowsFromTimestamp 150 adbcOneRec.table) := by
  decide

/-- Claim C1 (amended): the Embedded backend's query_metrics returns exactly the
stored records with timestamp at least from_timestamp for every state and every
from_timestamp; the Driver-Managed backend does so whenever at least one stored
record matches (an empty match is surfaced as NotFound instead, see C3); in
particular, after inserting the two example records, query_metrics 150 returns
only the second record on both backends. -/
theorem C1_amended :
    (∀ (b : DuckDbBackend) (now from_timestamp : Int),
        (b.query_metrics now from_timestamp).result
          = Except.ok (rowsFromTimestamp from_timestamp b.table))
    ∧ (∀ (b : AdbcBackend) (from_timestamp : Int),
        rowsFromTimestamp from_timestamp b.table ≠ [] →
        (b.query_metrics from_timestamp).result
          = Except.ok (rowsFromTimestamp from_timestamp b.table))
    ∧ (((((duckFresh.insert_metrics 0 [cpuRecord1]).state).insert_metrics 0
          [cpuRecord2]).state).query_metrics 0 150).result = Except.ok [cpuRecord2]
    ∧ (((((adbcFresh.insert_metrics [cpuRecord1]).state).insert_metrics
          [cpuRecord2]).state).query_metrics 150).result = Except.ok [cpuRecord2] := by
  refine ⟨?_, ?_, by decide, by decide⟩
  · intro b now ft
    rfl
  · intro b ft h
    have hni : ¬ ((rowsFromTimestamp ft b.table).isEmpty = true) :=
      fun hh => h (by simpa [List.isEmpty_iff] using hh)
    simp [AdbcBackend.query_metrics, hni]

/-- Witness for C1 (amended): the nonempty-match case of the Driver-Managed
backend at a concrete state. -/
theorem C1_witness :
    (AdbcBackend.query_metrics adbcRec2 150).result
      = Except.ok (rowsFromTimestamp 150 adbcRec2.table) :=
  C1_amended.2.1 adbcRec2 150 (by decide)

/-- Claim C2 fails as stated: a concrete insert_metrics call on the
Driver-Managed backend consults no eviction policy at all — its whole effect
trace is the single INSERT submission, with no should_evict check. -/
theorem C2_counterexample :
    (AdbcBackend.insert_metrics adbcFresh [cpuRecord1]).trace
      = [Effect.sqlExec adbcInsertSql]
    ∧ (AdbcBackend.insert_metrics adbcFresh [cpuRecord1]).trace.all
        (fun e => !e.isCheckEvict) = true := by
  exact ⟨rfl, by decide⟩

/-- Claim C2 (amended): only the Embedded backend consults should_evict, as the
first action of every insert_metrics and query_metrics call, and when a cutoff
is due it spawns the eviction before submitting the insert or query statement,
independently of that statement's outcome; the Driver-Managed backend performs
no eviction check on either path. -/
theorem C2_amended :
    (∀ (b : DuckDbBackend) (now : Int) (metrics : List MetricRecord),
        (b.insert_metrics now metrics).trace.head?
          = some (Effect.checkEvict (b.cache_manager.should_evict now))
        ∧ ∀ cutoff, b.cache_manager.should_evict now = some cutoff →
            (b.insert_metrics now metrics).trace
              = [Effect.checkEvict (some cutoff),
                 Effect.spawnEviction (b.cache_manager.eviction_query cutoff),
                 Effect.sqlExec (duckInsertQuery metrics)])
    ∧ (∀ (b : DuckDbBackend) (now from_timestamp : Int),
        (b.query_metrics now from_timestamp).trace.head?
          = some (Effect.checkEvict (b.cache_manager.should_evict now))
        ∧ ∀ cutoff, b.cache_manager.should_evict now = some cutoff →
            (b.query_metrics now from_timestamp).trace
              = [Effect.checkEvict (some cutoff),
                 Effect.spawnEviction (b.cache_manager.eviction_query cutoff),
                 Effect.sqlExec (duckSelectQuery from_timestamp)])
    ∧ (∀ (b : AdbcBackend) (metrics : List MetricRecord),
        (b.insert_metrics metrics).trace.all (fun e => !e.isCheckEvict) = true)
    ∧ (∀ (b : AdbcBackend) (from_timestamp : Int),
        (b.query_metrics from_timestamp).trace.all (fun e => !e.isCheckEvict) = true) := by
  refine ⟨?_, ?_, ?_, ?_⟩
  · intro b now metrics
    constructor
    · cases h : b.cache_manager.should_evict now <;>
        simp [DuckDbBackend.insert_metrics, DuckDbBackend.evictionPrologue, h,
          DuckDbBackend.execute_eviction]
    · intro cutoff hc
      simp [DuckDbBackend.insert_metrics, DuckDbBackend.evictionPrologue, hc,
        DuckDbBackend.execute_eviction]
  · intro b now ft
    constructor
    · cases h : b.cache_manager.should_evict now <;>
        simp [DuckDbBackend.query_metrics, DuckDbBackend.evictionPrologue, h,
          DuckDbBackend.execute_eviction]
    · intro cutoff hc
      simp [DuckDbBackend.query_metrics, DuckDbBackend.evictionPrologue, hc,
        DuckDbBackend.execute_eviction]
  · intro b metrics
    rfl
  · intro b ft
    cases h : (rowsFromTimestamp ft b.table).isEmpty <;>
      simp [AdbcBackend.query_metrics, h, Effect.isCheckEvict]
/-- Witness for C2 (amended): with a ten-second TTL configured and the clock at
100, a concrete Embedded insert spawns the eviction for cutoff 90 before its
INSERT statement. -/
theorem C2_witness :
    (DuckDbBackend.insert_metrics duckTtl10 100 [cpuRecord1]).trace
      = [Effect.checkEvict (some 90),
         Effect.spawnEviction (CacheManager.eviction_query (CacheManager.new (some 10)) 90),
         Effect.sqlExec (duckInsertQuery [cpuRecord1])] :=
  (C2_amended.1 duckTtl10 100 [cpuRecord1]).2 90 (by decide)

/-- Claim C3: when no stored row matches the timestamp filter, the
Driver-Managed backend's query_metrics fails with the NotFound error while the
Embedded backend's succeeds with the empty sequence. -/
theorem C3_thm :
    (∀ (b : AdbcBackend) (from_timestamp : Int),
        rowsFromTimestamp from_timestamp b.table = [] →
        (b.query_metrics from_timestamp).result
          = Except.error (Status.not_found "No metrics found for the given timestamp"))
    ∧ (∀ (b : DuckDbBackend) (now from_timestamp : Int),
        rowsFromTimestamp from_timestamp b.table = [] →
        (b.query_metrics now from_timestamp).result = Except.ok []) := by
  constructor
  · intro b ft h
    simp [AdbcBackend.query_metrics, h]
  · intro b now ft h
    simp [DuckDbBackend.query_metrics, h]

/-- Witness for C3: both empty-result behaviours at concrete empty states. -/
theorem C3_witness :
    (AdbcBackend.query_metrics adbcFresh 0).result
      = Except.error (Status.not_found "No metrics found for the given timestamp")
    ∧ (DuckDbBackend.query_metrics duckFresh 0 0).result = Except.ok [] :=
  ⟨C3_thm.1 adbcFresh 0 (by decide), C3_thm.2 duckFresh 0 0 (by decide)⟩

/-- Claim C4: the Embedded backend's prepare_sql returns exactly the raw UTF-8
bytes of the query text, and query_sql applied to those bytes is the same
operation as query_metrics applied to the timestamp parsed from the text (parse
failures defaulting to 0, as in the source). -/
theorem C4_thm :
    ∀ (b : DuckDbBackend) (s : String) (now : Int),
      (b.prepare_sql s).result = Except.ok (utf8EncodeString s)
      ∧ b.query_sql now (utf8EncodeString s)
          = b.query_metrics now (parseI64OrZero (stringScalars s)) := by
  intro b s now
  refine ⟨rfl, ?_⟩
  unfold DuckDbBackend.query_sql
  rw [utf8DecodeScalars_encodeString]

/-- Claim C5: starting from a fresh counter, N prepare_sql calls on the
Driver-Managed backend (N at most 2 ^ 64) return pairwise-distinct handles,
namely the successive u64 counter values each serialized as exactly eight
little-endian bytes. -/
theorem C5_thm :
    ∀ (qs : List String) (b : AdbcBackend),
      b.statement_counter = 0 → qs.length ≤ 2 ^ 64 →
      (AdbcBackend.prepareMany b qs).1 = (List.range qs.length).map u64ToLeBytes
      ∧ (AdbcBackend.prepareMany b qs).1.Pairwise (fun h1 h2 => h1 ≠ h2)
      ∧ ∀ h ∈ (AdbcBackend.prepareMany b qs).1, h.length = 8 := by
  intro qs b h0 hlen
  have hfst := prepareMany_fst qs b (by rw [h0]; norm_num)
  rw [h0] at hfst
  have heq : (List.range qs.length).map (fun i => u64ToLeBytes ((0 + i) % 2 ^ 64))
      = (List.range qs.length).map u64ToLeBytes := by
    refine List.map_congr_left ?_
    intro i hi
    rw [List.mem_range] at hi
    congr 1
    omega
  rw [hfst, heq]
  refine ⟨rfl, ?_, ?_⟩
  · rw [List.pairwise_map]
    have hp := List.pairwise_lt_range qs.length
    refine hp.imp_of_mem ?_
    intro a c ha hc hac
    rw [List.mem_range] at ha hc
    intro he
    exact absurd (u64ToLeBytes_inj a c (by omega) (by omega) he) (by omega)
  · intro h hm
    rw [List.mem_map] at hm
    obtain ⟨i, _, rfl⟩ := hm
    rfl

/-- Witness for C5: three prepare_sql calls on a fresh backend. -/
theorem C5_witness :
    (AdbcBackend.prepareMany adbcFresh ["a", "b", "c"]).1
      = (List.range (["a", "b", "c"] : List String).length).map u64ToLeBytes
    ∧ (AdbcBackend.prepareMany adbcFresh ["a", "b", "c"]).1.Pairwise
        (fun h1 h2 => h1 ≠ h2)
    ∧ ∀ h ∈ (AdbcBackend.prepareMany adbcFresh ["a", "b", "c"]).1, h.length = 8 :=
  C5_thm ["a", "b", "c"] adbcFresh rfl (by decide)

/-- Claim C6 fails as stated over every backend: the Embedded backend maps a
structurally malformed (non-UTF-8) handle to an Internal error, not
InvalidArgument. -/
theorem C6_counterexample :
    resultStatusCode (DuckDbBackend.query_sql duckFresh 0 [255]) = some StatusCode.internal
    ∧ resultStatusCode (DuckDbBackend.query_sql duckFresh 0 [255])
        ≠ some StatusCode.invalidArgument := by
  exact ⟨by decide, by decide⟩

/-- Claim C6 (amended): on the Driver-Managed backend a wrong-length handle and
an unknown eight-byte handle both fail with InvalidArgument; the Embedded
backend instead fails with Internal on a non-UTF-8 handle, and accepts any
decodable handle — even one never returned by prepare_sql — by treating it as a
timestamp string. -/
theorem C6_amended :
    (∀ (b : AdbcBackend) (handle : List Nat), handle.length ≠ 8 →
        (b.query_sql handle).result
          = Except.error (Status.invalid_argument "Invalid statement handle"))
    ∧ (∀ (b : AdbcBackend) (n : Nat), n < 2 ^ 64 →
        (∀ p ∈ b.prepared_statements, p.1 ≠ n) →
        (b.query_sql (u64ToLeBytes n)).result
          = Except.error (Status.invalid_argument "Statement handle not found"))
    ∧ (∀ (b : DuckDbBackend) (now : Int) (handle : List Nat),
        utf8DecodeScalars handle = none →
        (b.query_sql now handle).result = Except.error (Status.internal utf8ErrorMessage))
    ∧ (∀ (b : DuckDbBackend) (now : Int) (handle scalars : List Nat),
        utf8DecodeScalars handle = some scalars →
        b.query_sql now handle = b.query_metrics now (parseI64OrZero scalars)) := by
  refine ⟨?_, ?_, ?_, ?_⟩
  · intro b handle hlen
    unfold AdbcBackend.query_sql
    rw [tryIntoU64_eq_none handle hlen]
  · intro b n hn hfind
    have hnone : b.prepared_statements.find? (fun p => p.1 == n) = none := by
      rw [List.find?_eq_none]
      intro p hp
      simpa using hfind p hp
    simp only [AdbcBackend.query_sql, tryIntoU64_u64ToLeBytes, Nat.mod_eq_of_lt hn, hnone]
  · intro b now handle hdec
    unfold DuckDbBackend.query_sql
    rw [hdec]
  · intro b now handle scalars hdec
    unfold DuckDbBackend.query_sql
    rw [hdec]

/-- Witness for C6 (amended): all four behaviours at concrete inputs. -/
theorem C6_witness :
    (AdbcBackend.query_sql adbcFresh [1, 2, 3]).result
      = Except.error (Status.invalid_argument "Invalid statement handle")
    ∧ (AdbcBackend.query_sql adbcFresh (u64ToLeBytes 5)).result
      = Except.error (Status.invalid_argument "Statement handle not found")
    ∧ (DuckDbBackend.query_sql duckFresh 0 [200]).result
      = Except.error (Status.internal utf8ErrorMessage)
    ∧ DuckDbBackend.query_sql duckFresh 0 (utf8EncodeString "150")
      = DuckDbBackend.query_metrics duckFresh 0 (parseI64OrZero (stringScalars "150")) :=
  ⟨C6_amended.1 adbcFresh [1, 2, 3] (by decide),
   C6_amended.2.1 adbcFresh 5 (by decide) (by decide),
   C6_amended.2.2.1 duckFresh 0 [200] (by decide),
   C6_amended.2.2.2 duckFresh 0 (utf8EncodeString "150") (stringScalars "150") (by decide)⟩

/-- Claim C7: execute_eviction returns Ok for every eviction query — the delete
runs on a detached task whose failure is only logged — and the results of
insert_metrics and query_metrics never depend on the cache manager, so no
foreground call can fail because of an eviction error. -/
theorem C7_thm :
    ∀ (b : DuckDbBackend) (q : String) (cm : CacheManager) (now : Int)
      (metrics : List MetricRecord) (from_timestamp : Int),
      (b.execute_eviction q).result = Except.ok ()
      ∧ (b.execute_eviction q).trace = [Effect.spawnEviction q]
      ∧ (({ b with cache_manager := cm } : DuckDbBackend).insert_metrics now metrics).result
          = (b.insert_metrics now metrics).result
      ∧ (({ b with cache_manager := cm } : DuckDbBackend).query_metrics now from_timestamp).result
          = (b.query_metrics now from_timestamp).result := by
  intro b q cm now metrics ft
  exact ⟨rfl, rfl, rfl, rfl⟩

/-- Claim C9: the Embedded backend's insert_metrics on an empty batch still
submits the INSERT statement text with an empty VALUES list to the engine, and
the call returns an error rather than Ok. -/
theorem C9_thm :
    ∀ (b : DuckDbBackend) (now : Int),
      duckInsertQuery []
        = "INSERT INTO metrics (timestamp, metric_id, value_running_window_sum, value_running_window_avg, value_running_window_count) VALUES "
      ∧ Effect.sqlExec (duckInsertQuery []) ∈ (b.insert_metrics now []).trace
      ∧ (b.insert_metrics now []).result
          = Except.error (Status.internal "Parser Error: syntax error at end of input") := by
  intro b now
  refine ⟨by decide, ?_, rfl⟩
  simp [DuckDbBackend.insert_metrics]

/-- Claim C10: DuckDbBackend::new returns Ok as soon as the connection opens,
only spawning create_tables as a detached task, so the returned instance has no
schema yet — construction gives no guarantee that the metrics table exists. -/
theorem C10_thm :
    ∀ (connection_string : String) (options : List (String × String)) (ttl : Option Nat),
      (DuckDbBackend.new connection_string options ttl).1 = [Effect.spawnCreateTables]
      ∧ (DuckDbBackend.new connection_string options ttl).2
          = Except.ok (duckNewState connection_string options ttl)
      ∧ (duckNewState connection_string options ttl).schema = none
      ∧ (duckNewState connection_string options ttl).table = [] := by
  intro cs opts ttl
  exact ⟨rfl, rfl, rfl, rfl⟩

/-- Re-creating an IF NOT EXISTS index on a schema that just received it (or
already had it) changes nothing. -/
theorem createIndexIfNotExists_stable (s : TableSchema) (idx : IndexDef) :
    createIndexIfNotExists (createIndexIfNotExists (some s) idx) idx
      = createIndexIfNotExists (some s) idx := by
  by_cases hany : s.indexes.any (fun i => i.name == idx.name)
  · simp only [createIndexIfNotExists, Option.map_some', if_pos hany]
  · simp only [createIndexIfNotExists, Option.map_some', if_neg hany]
    have hc : ({ s with indexes := s.indexes ++ [idx] } : TableSchema).indexes.any
        (fun i => i.name == idx.name) = true := by
      simp [List.any_append]
    rw [if_pos hc]

/-- Claim C8: on both backends init returns Ok, is idempotent, and ensures the
metrics table exists; from a fresh state the Embedded backend creates exactly
the five declared NOT NULL columns plus the secondary timestamp index (and no
primary key), and the Driver-Managed backend creates exactly the five declared
NOT NULL columns with PRIMARY KEY (metric_id, timestamp) (and no index). -/
theorem C8_thm :
    (∀ b : DuckDbBackend, b.schema = none →
        ((b.init).state).schema
          = some { duckMetricsTable with indexes := [duckTimestampIndex] })
    ∧ (∀ b : AdbcBackend, b.schema = none →
        ((b.init).state).schema = some adbcMetricsTable)
    ∧ (∀ b : DuckDbBackend,
        (b.init).result = Except.ok ()
        ∧ (((b.init).state).init).state = (b.init).state
        ∧ (((b.init).state).schema).isSome = true)
    ∧ (∀ b : AdbcBackend,
        (b.init).result = Except.ok ()
        ∧ (((b.init).state).init).state = (b.init).state
        ∧ (((b.init).state).schema).isSome = true)
    ∧ List.Perm duckMetricsTable.columns
        [⟨"metric_id", ColType.varchar, true⟩,
           ⟨"timestamp", ColType.bigint, true⟩,
           ⟨"value_running_window_sum", ColType.double, true⟩,
           ⟨"value_running_window_avg", ColType.double, true⟩,
           ⟨"value_running_window_count", ColType.bigint, true⟩]
    ∧ List.Perm adbcMetricsTable.columns
        [⟨"metric_id", ColType.varchar, true⟩,
           ⟨"timestamp", ColType.bigint, true⟩,
           ⟨"value_running_window_sum", ColType.double, true⟩,
           ⟨"value_running_window_avg", ColType.double, true⟩,
           ⟨"value_running_window_count", ColType.bigint, true⟩]
    ∧ duckMetricsTable.primaryKey = none
    ∧ duckTimestampIndex = ⟨"metrics_timestamp_idx", ["timestamp"]⟩
    ∧ adbcMetricsTable.primaryKey = some ["metric_id", "timestamp"]
    ∧ adbcMetricsTable.indexes = [] := by
  refine ⟨?_, ?_, ?_, ?_, by decide, by decide, rfl, rfl, rfl, rfl⟩
  · intro b hs
    simp [DuckDbBackend.init, DuckDbBackend.create_tables, createTableIfNotExists,
      createIndexIfNotExists, hs, duckMetricsTable, duckTimestampIndex]
  · intro b hs
    simp [AdbcBackend.init, AdbcBackend.create_tables, createTableIfNotExists, hs]
  · intro b
    refine ⟨rfl, ?_, ?_⟩
    · cases hs : b.schema with
      | none =>
        simp [DuckDbBackend.init, DuckDbBackend.create_tables, createTableIfNotExists,
          createIndexIfNotExists, hs, duckMetricsTable, duckTimestampIndex]
      | some s =>
        have h1 : (b.init).state
            = { b with schema := createIndexIfNotExists (some s) duckTimestampIndex } := by
          simp only [DuckDbBackend.init, DuckDbBackend.create_tables, hs]
          rfl
        have h2 : (((b.init).state).init).state
            = { b with
                schema := createIndexIfNotExists
                  (createIndexIfNotExists (some s) duckTimestampIndex)
                  duckTimestampIndex } := by
          rw [h1]
          rfl
        rw [h2, createIndexIfNotExists_stable, h1]
    · cases hs : b.schema with
      | none =>
        simp [DuckDbBackend.init, DuckDbBackend.create_tables, createTableIfNotExists,
          createIndexIfNotExists, hs]
      | some s =>
        simp [DuckDbBackend.init, DuckDbBackend.create_tables, createTableIfNotExists,
          createIndexIfNotExists, hs]
  · intro b
    refine ⟨rfl, ?_, ?_⟩
    · cases hs : b.schema with
      | none =>
        simp [AdbcBackend.init, AdbcBackend.create_tables, createTableIfNotExists, hs]
      | some s =>
        simp [AdbcBackend.init, AdbcBackend.create_tables, createTableIfNotExists, hs]
    · cases hs : b.schema with
      | none =>
        simp [AdbcBackend.init, AdbcBackend.create_tables, createTableIfNotExists, hs]
      | some s =>
        simp [AdbcBackend.init, AdbcBackend.create_tables, createTableIfNotExists, hs]

/-- Witness for C8: the fresh-state schema creation on both backends. -/
theorem C8_witness :
    ((duckFresh.init).state).schema
      = some { duckMetricsTable with indexes := [duckTimestampIndex] }
    ∧ ((adbcFresh.init).state).schema = some adbcMetricsTable :=
  ⟨C8_thm.1 duckFresh rfl, C8_thm.2.1 adbcFresh rfl⟩
